import Mathlib

/-!
Verification development for the natural-language task-management agent.

The definitions below are a shallow embedding of the Python sources:
  backend/agent/agent.py            (casual classifier, task resolver, dispatch invokers)
  backend/agent/intent_parser.py    (intent matching and parameter extraction)
  backend/agent/response_formatter.py (error-code to message table)
  backend/mcp/tools/*.py            (owner-scoped task store operations)
The task store (a SQL table of task rows) is modelled as a list of task
records; each tool transforms that list exactly as the corresponding
SQL query does.  Machine floats of the Python code (similarity scores,
confidences) are modelled as exact rationals: every score is a ratio of
string lengths bounded by the 500-character title limit, so rational and
double-precision comparisons against the 0.7 threshold agree.
-/

namespace TodoAgent

/-- Python str.lower() restricted to the task alphabet (ASCII). -/
def pyLower (s : String) : String :=
  ⟨s.data.map Char.toLower⟩

/-- Python str.strip(): drop whitespace on both ends. -/
def pyStrip (s : String) : String :=
  ⟨((s.data.dropWhile Char.isWhitespace).reverse.dropWhile Char.isWhitespace).reverse⟩

/-- Task row of the tasks table (backend/models/task.py).  Timestamps and
the due date carry no information used by any claim and are omitted. -/
structure Task where
  id : Nat
  user_id : String
  title : String
  description : Option String := none
  completed : Bool := false
  priority : Option String := none
deriving Repr, DecidableEq

/-- The task store: the rows of the tasks table. -/
abbrev DB := List Task

/-- Payload of a tool response (the data dict of backend/mcp/schemas/base.py). -/
inductive ToolData where
  | taskList (tasks : List Task) (count : Nat)
  | taskData (t : Task)
  | updatedTask (t : Task) (old_title : Option String)
  | deleted (task_id : Nat)
deriving Repr, DecidableEq

/-- ToolResponse of backend/mcp/schemas/base.py. -/
structure ToolResponse where
  success : Bool
  data : Option ToolData := none
  error : Option String := none
  error_code : Option String := none
deriving Repr, DecidableEq

/-- The user-id validation shared by all five tools:
Python `not user_id or len(user_id.strip()) == 0` negated. -/
def validUserId (user_id : String) : Bool :=
  !(user_id == "") && !(pyStrip user_id == "")

/-- Containment of one character list in another, the model of the Python
substring operator `needle in hay`.  An empty needle is contained in
everything, as in Python. -/
def containsSub (needle : List Char) : List Char → Bool
  | [] => needle.isEmpty
  | c :: rest => needle.isPrefixOf (c :: rest) || containsSub needle rest

/-- Python `needle in hay` on strings. -/
def strContains (hay needle : String) : Bool :=
  containsSub needle.data hay.data

/-- list_tasks of backend/mcp/tools/list_tasks.py: owner-scoped select with
optional completed and priority filters. -/
def list_tasks (db : DB) (user_id : String) (completed : Option Bool)
    (priority : Option String) : ToolResponse :=
  if validUserId user_id = false then
    { success := false,
      error := some "User ID is required and cannot be empty",
      error_code := some "INVALID_USER_ID" }
  else
    let tasks := db.filter (fun t =>
      t.user_id == user_id
      && (match completed with | none => true | some c => t.completed == c)
      && (match priority with | none => true | some p => t.priority == some p))
    { success := true, data := some (ToolData.taskList tasks tasks.length) }

/-- All rows of the store owned by the given user, in store order. -/
def ownerTasks (db : DB) (user_id : String) : List Task :=
  db.filter (fun t => t.user_id == user_id)

/-- The task list carried by a successful list_tasks response. -/
def listedTasks (resp : ToolResponse) : List Task :=
  match resp.data with
  | some (ToolData.taskList tasks _) => tasks
  | _ => []

/-- Similarity score of identify_task (backend/agent/agent.py, lines 527-536).
Both arguments are already lowercased by the caller, as in the source:
ratio of lengths under containment either way, otherwise the number of
needle characters that occur in the haystack over the larger length. -/
def score (needle haystack : String) : ℚ :=
  if strContains haystack needle then
    (needle.length : ℚ) / (haystack.length : ℚ)
  else if strContains needle haystack then
    (haystack.length : ℚ) / (needle.length : ℚ)
  else
    ((needle.data.filter (fun c => haystack.data.contains c)).length : ℚ)
      / ((max needle.length haystack.length : Nat) : ℚ)

/-- The best-match loop of identify_task (lines 519-543): fold over the
candidate tasks keeping the first-seen maximum among scores that are
strictly above the running best and at least 0.7. -/
def findBest (needle : String) : List Task → Option Nat → ℚ → Option Nat
  | [], best_match, _ => best_match
  | t :: rest, best_match, best_score =>
    let s := score needle (pyLower t.title)
    if best_score < s ∧ (7 : ℚ)/10 ≤ s then
      findBest needle rest (some t.id) s
    else
      findBest needle rest best_match best_score

/-- identify_task of backend/agent/agent.py: re-fetch the task list of the
owner, validate a caller-supplied id against it, otherwise fuzzy-match a
title; any lookup failure yields none.  The Python truthiness test
`if task_title:` makes an empty title fall through to none. -/
def identify_task (db : DB) (user_id : String) (task_id : Option Nat)
    (task_title : Option String) : Option Nat :=
  let resp := list_tasks db user_id none none
  if resp.success = false then none
  else
    match resp.data with
    | some (ToolData.taskList tasks _) =>
      match task_id with
      | some tid => if tasks.any (fun t => t.id == tid) then some tid else none
      | none =>
        match task_title with
        | some title =>
          if title == "" then none
          else findBest (pyLower title) tasks none 0
        | none => none
    | _ => none

/-- Score of a candidate task against the needle, needle already lowered:
exactly what the loop body of identify_task computes per task. -/
def taskScore (needle : String) (t : Task) : ℚ :=
  score needle (pyLower t.title)

/-- Containment-ratio similarity as worded in the spec, section 4.4:
score is the ratio of lengths when one side contains the other, and
otherwise the count of needle characters appearing in the haystack over
the larger of the two lengths.  Stated over already-lowercased strings. -/
def specScore (needle haystack : String) : ℚ :=
  if strContains haystack needle then
    (needle.length : ℚ) / (haystack.length : ℚ)
  else if strContains needle haystack then
    (haystack.length : ℚ) / (needle.length : ℚ)
  else
    ((needle.data.filter (fun c => haystack.data.contains c)).length : ℚ)
      / ((max needle.length haystack.length : Nat) : ℚ)

/-- Case-insensitive spec score of a candidate task. -/
def specTaskScore (needle : String) (t : Task) : ℚ :=
  specScore (pyLower needle) (pyLower t.title)

/-- Maximum of a list of rationals, none on the empty list. -/
def qmax : List ℚ → Option ℚ
  | [] => none
  | s :: rest =>
    match qmax rest with
    | none => some s
    | some m => some (max s m)

/-- Resolution by title as worded in the spec, section 4.4: among the
candidates scoring at least 0.70 keep the highest score, ties keeping the
first-seen maximum; none when no candidate reaches the threshold. -/
def specResolveTitle (needle : String) (tasks : List Task) : Option Nat :=
  match qmax ((tasks.map (specTaskScore needle)).filter
      (fun s => decide ((7 : ℚ)/10 ≤ s))) with
  | none => none
  | some m => (tasks.find? (fun t => decide (specTaskScore needle t = m))).map Task.id

lemma qmax_eq_none : ∀ {l : List ℚ}, qmax l = none ↔ l = []
  | [] => by simp [qmax]
  | s :: rest => by
    simp only [qmax]
    cases hr : qmax rest <;> simp

lemma qmax_mem : ∀ {l : List ℚ} {m : ℚ}, qmax l = some m → m ∈ l
  | [], m, h => by simp [qmax] at h
  | s :: rest, m, h => by
    simp only [qmax] at h
    cases hr : qmax rest with
    | none =>
      rw [hr] at h
      simp only [Option.some.injEq] at h
      simp [h]
    | some m' =>
      rw [hr] at h
      simp only [Option.some.injEq] at h
      rcases le_total s m' with hle | hle
      · have hm : m = m' := by rw [← h, max_eq_right hle]
        exact hm ▸ List.mem_cons_of_mem _ (qmax_mem hr)
      · have hm : m = s := by rw [← h, max_eq_left hle]
        simp [hm]

lemma le_qmax : ∀ {l : List ℚ} {x m : ℚ}, x ∈ l → qmax l = some m → x ≤ m
  | [], x, m, hx, _ => by simp at hx
  | s :: rest, x, m, hx, h => by
    simp only [qmax] at h
    cases hr : qmax rest with
    | none =>
      have hre : rest = [] := qmax_eq_none.mp hr
      rw [hr] at h
      simp only [Option.some.injEq] at h
      subst hre
      simp at hx
      simp [hx, ← h]
    | some m' =>
      rw [hr] at h
      simp only [Option.some.injEq] at h
      rcases List.mem_cons.mp hx with hxs | hxr
      · rw [hxs, ← h]; exact le_max_left _ _
      · calc x ≤ m' := le_qmax hxr hr
          _ ≤ m := h ▸ le_max_right _ _

/-- Scores of the candidates that beat the running best and the threshold. -/
def aboveCut (needle : String) (bs : ℚ) (ts : List Task) : List ℚ :=
  (ts.map (taskScore needle)).filter (fun s => decide (bs < s ∧ (7 : ℚ)/10 ≤ s))

lemma mem_aboveCut {needle : String} {bs m : ℚ} {ts : List Task}
    (h : m ∈ aboveCut needle bs ts) :
    bs < m ∧ (7 : ℚ)/10 ≤ m ∧ ∃ u ∈ ts, taskScore needle u = m := by
  simp only [aboveCut, List.mem_filter, List.mem_map, decide_eq_true_eq] at h
  obtain ⟨⟨u, hu, hsc⟩, h1, h2⟩ := h
  exact ⟨h1, h2, u, hu, hsc⟩

lemma mem_aboveCut_of {needle : String} {bs : ℚ} {ts : List Task} {u : Task}
    (hu : u ∈ ts) (h1 : bs < taskScore needle u) (h2 : (7 : ℚ)/10 ≤ taskScore needle u) :
    taskScore needle u ∈ aboveCut needle bs ts := by
  simp only [aboveCut, List.mem_filter, List.mem_map, decide_eq_true_eq]
  exact ⟨⟨u, hu, rfl⟩, h1, h2⟩

lemma taskScore_def (needle : String) (t : Task) :
    score needle (pyLower t.title) = taskScore needle t := rfl

/-- Characterisation of the best-match loop: it returns the first-seen task
achieving the maximum of the scores that are strictly above the incoming
best and at least 0.7, and the incoming best match if there is none. -/
lemma findBest_eq (needle : String) :
    ∀ (ts : List Task) (bm : Option Nat) (bs : ℚ),
      findBest needle ts bm bs =
        match qmax (aboveCut needle bs ts) with
        | none => bm
        | some m => (ts.find? (fun t => decide (taskScore needle t = m))).map Task.id := by
  intro ts
  induction ts with
  | nil => intro bm bs; simp [findBest, aboveCut, qmax]
  | cons t rest ih =>
    intro bm bs
    by_cases hc : bs < taskScore needle t ∧ (7 : ℚ)/10 ≤ taskScore needle t
    · have hstep : findBest needle (t :: rest) bm bs
          = findBest needle rest (some t.id) (taskScore needle t) := by
        simp only [findBest, taskScore_def]
        rw [if_pos hc]
      have hcons : aboveCut needle bs (t :: rest)
          = taskScore needle t :: aboveCut needle bs rest := by
        simp [aboveCut, hc]
      rw [hstep, ih, hcons]
      cases h1 : qmax (aboveCut needle (taskScore needle t) rest) with
      | none =>
        have hempty : aboveCut needle (taskScore needle t) rest = [] := qmax_eq_none.mp h1
        simp only [qmax]
        cases h2 : qmax (aboveCut needle bs rest) with
        | none =>
          dsimp only
          rw [List.find?_cons_of_pos _ (by simp)]
          rfl
        | some m' =>
          have hm' := qmax_mem h2
          obtain ⟨_, hm2, u, hu, hsc⟩ := mem_aboveCut hm'
          have hle : m' ≤ taskScore needle t := by
            by_contra hlt
            push_neg at hlt
            have hmem2 : m' ∈ aboveCut needle (taskScore needle t) rest := by
              rw [← hsc] at hlt hm2 ⊢
              exact mem_aboveCut_of hu hlt hm2
            rw [hempty] at hmem2
            simp at hmem2
          dsimp only
          rw [max_eq_left hle]
          rw [List.find?_cons_of_pos _ (by simp)]
          rfl
      | some m =>
        obtain ⟨hsm, hm7, u, hu, hsc⟩ := mem_aboveCut (qmax_mem h1)
        have hqm : qmax (aboveCut needle bs rest) = some m := by
          cases h2 : qmax (aboveCut needle bs rest) with
          | none =>
            have hmm : m ∈ aboveCut needle bs rest := by
              rw [← hsc] at hsm hm7 ⊢
              exact mem_aboveCut_of hu (lt_trans hc.1 hsm) hm7
            rw [qmax_eq_none.mp h2] at hmm
            simp at hmm
          | some m'' =>
            have hmem_m : m ∈ aboveCut needle bs rest := by
              rw [← hsc] at hsm hm7 ⊢
              exact mem_aboveCut_of hu (lt_trans hc.1 hsm) hm7
            have h_le1 : m ≤ m'' := le_qmax hmem_m h2
            have h_le2 : m'' ≤ m := by
              obtain ⟨hb, h7, u'', hu'', hsc''⟩ := mem_aboveCut (qmax_mem h2)
              by_cases hcmp : taskScore needle t < m''
              · have hmem'' : m'' ∈ aboveCut needle (taskScore needle t) rest := by
                  rw [← hsc''] at hcmp h7 ⊢
                  exact mem_aboveCut_of hu'' hcmp h7
                exact le_qmax hmem'' h1
              · push_neg at hcmp
                exact (hcmp.trans_lt hsm).le
            rw [le_antisymm h_le1 h_le2]
        simp only [qmax, hqm]
        rw [max_eq_right hsm.le]
        rw [List.find?_cons_of_neg _ (by simp [ne_of_lt hsm])]
    · have hstep : findBest needle (t :: rest) bm bs = findBest needle rest bm bs := by
        simp only [findBest, taskScore_def]
        rw [if_neg hc]
      have hcons : aboveCut needle bs (t :: rest) = aboveCut needle bs rest := by
        simp [aboveCut, hc]
      rw [hstep, ih, hcons]
      cases h1 : qmax (aboveCut needle bs rest) with
      | none => rfl
      | some m =>
        obtain ⟨hb, h7, _, _, _⟩ := mem_aboveCut (qmax_mem h1)
        have hne : taskScore needle t ≠ m := by
          intro he
          exact hc ⟨he ▸ hb, he ▸ h7⟩
        dsimp only
        rw [List.find?_cons_of_neg _ (by simp [hne])]

lemma containsSub_nil (l : List Char) : containsSub [] l = true := by
  cases l <;> rfl

lemma specScore_eq : specScore = score := rfl

lemma specTaskScore_eq (needle : String) :
    specTaskScore needle = taskScore (pyLower needle) := rfl

lemma score_empty_needle (hay : String) : score "" hay = 0 := by
  have h : strContains hay "" = true := containsSub_nil hay.data
  simp [score, h]

lemma list_tasks_all (db : DB) (uid : String) (h : validUserId uid = true) :
    list_tasks db uid none none =
      { success := true,
        data := some (ToolData.taskList (ownerTasks db uid) (ownerTasks db uid).length) } := by
  simp [list_tasks, h, ownerTasks]

/-- On the whole candidate list the loop realises the resolution rule worded
in the spec. -/
lemma findBest_spec (needle : String) (tasks : List Task) :
    findBest (pyLower needle) tasks none 0 = specResolveTitle needle tasks := by
  rw [findBest_eq]
  have hp : ∀ s : ℚ, decide ((0 : ℚ) < s ∧ (7 : ℚ)/10 ≤ s) = decide ((7 : ℚ)/10 ≤ s) := by
    intro s
    by_cases h : (7 : ℚ)/10 ≤ s
    · have h0 : (0 : ℚ) < s := lt_of_lt_of_le (by norm_num) h
      simp [h, h0]
    · simp [h]
  unfold specResolveTitle aboveCut
  simp only [specTaskScore_eq, hp]

/-- C2: with no task id given, the resolver of agent.py scores each task of
the owner case-insensitively by the containment-ratio rule of the spec and
returns the first-seen task achieving the maximal score at least 0.70, and
returns none when no task reaches 0.70, when neither id nor title is given,
or when the task-list lookup fails (invalid owner id). -/
theorem identify_task_title_follows_spec (db : DB) (user_id title : String) :
    identify_task db user_id none none = none
    ∧ identify_task db user_id none (some title) =
        (if validUserId user_id = true then specResolveTitle title (ownerTasks db user_id)
         else none) := by
  by_cases h : validUserId user_id = true
  · have hl := list_tasks_all db user_id h
    refine ⟨by simp [identify_task, hl], ?_⟩
    rw [if_pos h]
    by_cases ht : title = ""
    · subst ht
      have hid : identify_task db user_id none (some "") = none := by
        simp [identify_task, hl]
      rw [hid]
      unfold specResolveTitle
      have hfil : ((ownerTasks db user_id).map (specTaskScore "")).filter
          (fun s => decide ((7 : ℚ)/10 ≤ s)) = [] := by
        rw [List.filter_eq_nil_iff]
        intro s hs
        simp only [List.mem_map] at hs
        obtain ⟨t, _, rfl⟩ := hs
        have hz : specTaskScore "" t = 0 := by
          unfold specTaskScore
          rw [specScore_eq, show pyLower "" = "" from rfl]
          exact score_empty_needle _
        rw [hz]
        norm_num
      rw [hfil]
      rfl
    · have hbe : (title == "") = false := by simp [ht]
      simp only [identify_task, hl]
      simp only [hbe, Bool.false_eq_true, if_false]
      simp [findBest_spec]
  · have hfalse : validUserId user_id = false := by
      cases hv : validUserId user_id
      · rfl
      · exact absurd hv h
    constructor <;> simp [identify_task, list_tasks, hfalse, h]

lemma identify_task_some_id (db : DB) (user_id : String) (tid : Nat)
    (task_title : Option String) :
    identify_task db user_id (some tid) task_title =
      (if validUserId user_id = true ∧ (ownerTasks db user_id).any (fun t => t.id == tid)
       then some tid else none) := by
  by_cases h : validUserId user_id = true
  · have hl := list_tasks_all db user_id h
    by_cases ha : (ownerTasks db user_id).any (fun t => t.id == tid) = true
    · simp [identify_task, hl, ha, h]
    · simp only [Bool.not_eq_true] at ha
      simp [identify_task, hl, ha, h]
  · have hfalse : validUserId user_id = false := by
      cases hv : validUserId user_id
      · rfl
      · exact absurd hv h
    simp [identify_task, list_tasks, hfalse, h]

/-- C10: when a task id is supplied, the resolver validates it against the
task list of the owner and ignores the title entirely: the result does not
depend on the title, and is the id itself exactly when it occurs among the
tasks of the owner (for a valid owner id). -/
theorem identify_task_id_decides (db : DB) (user_id : String) (tid : Nat)
    (task_title : Option String) :
    identify_task db user_id (some tid) task_title =
      (if validUserId user_id = true ∧ (ownerTasks db user_id).any (fun t => t.id == tid)
       then some tid else none) :=
  identify_task_some_id db user_id tid task_title

/-! Response formatter (backend/agent/response_formatter.py). -/

/-- The error_map dict of format_error_response.  The VALIDATION_ERROR entry
interpolates the technical error message (an f-string in the source). -/
def error_map (error_message : String) : List (String × String) :=
  [("TASK_NOT_FOUND", "I couldn\x27t find that task. Try listing your tasks first."),
   ("VALIDATION_ERROR", "Invalid input: " ++ error_message),
   ("DATABASE_ERROR", "Something went wrong. Please try again."),
   ("INTERNAL_ERROR", "An error occurred. Please try again."),
   ("INVALID_USER_ID", "User authentication failed. Please log in again.")]

/-- format_error_response of backend/agent/response_formatter.py: dict
lookup with a generic retry fallback. -/
def format_error_response (error_code error_message : String) : String :=
  ((error_map error_message).lookup error_code).getD
    "Something went wrong. Please try again."

/-! Casual-vs-task classifier (backend/agent/agent.py, is_casual_conversation). -/

def explicit_task_keywords : List String :=
  ["add task", "create task", "new task", "make task",
   "delete task", "remove task",
   "update task", "change task", "modify task", "edit task",
   "list task", "show task", "view task", "my tasks", "get tasks",
   "mark task", "complete task"]

def pure_greetings : List String :=
  ["hi", "hello", "hey", "yo", "sup", "wassup", "good morning", "good evening"]

def sharing_patterns : List String :=
  ["i went", "i bought", "i did", "i had", "i saw", "i met",
   "today i", "yesterday i", "last night i",
   "just", "recently"]

def thanks_words : List String :=
  ["thank", "thanks", "appreciate"]

def feeling_patterns : List String :=
  ["how are you", "what\x27s up",
   "i feel", "i\x27m feeling", "feeling",
   "my day", "today was", "had a", "been",
   "tired", "exhausted", "stressed", "frustrated",
   "happy", "excited", "sad"]

def agent_question_phrases : List String :=
  ["who are you", "what are you", "what can you", "how do you"]

def goodbye_words : List String :=
  ["bye", "goodbye", "see you", "good night"]

def completion_words : List String :=
  ["mark", "complete", "done", "finished"]

/-- Words of a message in the sense of Python str.split(): maximal runs of
non-whitespace characters. -/
def wordsAux : List Char → List Char → List String
  | [], acc => if acc.isEmpty then [] else [⟨acc.reverse⟩]
  | c :: rest, acc =>
    if c.isWhitespace then
      (if acc.isEmpty then wordsAux rest [] else ⟨acc.reverse⟩ :: wordsAux rest [])
    else wordsAux rest (c :: acc)

def pyWordCount (s : String) : Nat :=
  (wordsAux s.data []).length

/-- is_casual_conversation of backend/agent/agent.py: the ordered chain of
keyword checks over the lowercased, stripped message.  A branch whose inner
completion-word guard fails falls through to the later checks, exactly as
the nested Python conditional does. -/
def is_casual_conversation (message : String) : Bool :=
  let ml := pyStrip (pyLower message)
  if explicit_task_keywords.any (fun k => strContains ml k) then false
  else if strContains ml "mark" && (strContains ml "done" || strContains ml "complete") then
    false
  else if pure_greetings.any (fun g => strContains ml g) && !(strContains ml "task") then
    true
  else if sharing_patterns.any (fun p => strContains ml p) && !(strContains ml "task")
      && !(completion_words.any (fun w => strContains ml w)) then
    true
  else if thanks_words.any (fun w => strContains ml w) && !(strContains ml "task") then
    true
  else if feeling_patterns.any (fun p => strContains ml p) && !(strContains ml "task") then
    true
  else if agent_question_phrases.any (fun p => strContains ml p) && !(strContains ml "task") then
    true
  else if goodbye_words.any (fun w => strContains ml w) then
    true
  else if decide (pyWordCount ml ≤ 5) && !(strContains ml "task") then
    true
  else false

/-- C8 counterexample: the VALIDATION_ERROR reply interpolates the technical
error message, so the user-facing reply for a failed result is not a
function of the error code alone. -/
theorem format_error_response_not_code_determined :
    ¬ (format_error_response "VALIDATION_ERROR" "title too long"
        = format_error_response "VALIDATION_ERROR" "missing new values") := by
  decide

/-- C8 (amended): the reply for a failure is taken from a fixed lookup table:
TASK_NOT_FOUND, DATABASE_ERROR, INTERNAL_ERROR and INVALID_USER_ID map to
fixed sentences depending only on the code, VALIDATION_ERROR maps to the
sentence Invalid input: followed by the technical error message, and every
unknown code falls back to the generic retry message. -/
theorem format_error_response_table (msg : String) :
    format_error_response "TASK_NOT_FOUND" msg
      = "I couldn\x27t find that task. Try listing your tasks first."
    ∧ format_error_response "VALIDATION_ERROR" msg = "Invalid input: " ++ msg
    ∧ format_error_response "DATABASE_ERROR" msg
      = "Something went wrong. Please try again."
    ∧ format_error_response "INTERNAL_ERROR" msg
      = "An error occurred. Please try again."
    ∧ format_error_response "INVALID_USER_ID" msg
      = "User authentication failed. Please log in again."
    ∧ ∀ code, code ∉ ["TASK_NOT_FOUND", "VALIDATION_ERROR", "DATABASE_ERROR",
          "INTERNAL_ERROR", "INVALID_USER_ID"] →
        format_error_response code msg = "Something went wrong. Please try again." := by
  refine ⟨rfl, rfl, rfl, rfl, rfl, ?_⟩
  intro code hc
  simp only [List.mem_cons, List.not_mem_nil, or_false, not_or] at hc
  obtain ⟨h1, h2, h3, h4, h5⟩ := hc
  have b1 : (code == "TASK_NOT_FOUND") = false := beq_eq_false_iff_ne.mpr h1
  have b2 : (code == "VALIDATION_ERROR") = false := beq_eq_false_iff_ne.mpr h2
  have b3 : (code == "DATABASE_ERROR") = false := beq_eq_false_iff_ne.mpr h3
  have b4 : (code == "INTERNAL_ERROR") = false := beq_eq_false_iff_ne.mpr h4
  have b5 : (code == "INVALID_USER_ID") = false := beq_eq_false_iff_ne.mpr h5
  simp [format_error_response, error_map, List.lookup, b1, b2, b3, b4, b5]

/-- C8 witness: an unknown error code gets the generic retry message. -/
theorem format_error_response_table_witness :
    "UNKNOWN_INTENT" ∉ ["TASK_NOT_FOUND", "VALIDATION_ERROR", "DATABASE_ERROR",
        "INTERNAL_ERROR", "INVALID_USER_ID"]
    ∧ format_error_response "UNKNOWN_INTENT" "Unknown intent"
      = "Something went wrong. Please try again." :=
  ⟨by decide, (format_error_response_table "Unknown intent").2.2.2.2.2 "UNKNOWN_INTENT" (by decide)⟩

/-- C5: a message whose lowercased text contains any explicit task keyword is
never classified as casual conversation, whatever else it contains. -/
theorem casual_false_on_task_keyword (message : String)
    (h : explicit_task_keywords.any
        (fun k => strContains (pyStrip (pyLower message)) k) = true) :
    is_casual_conversation message = false := by
  simp [is_casual_conversation, h]

/-- C5 witness: a message full of casual markers but containing the keyword
add task is classified as a task operation. -/
theorem casual_false_on_task_keyword_witness :
    explicit_task_keywords.any
        (fun k => strContains (pyStrip (pyLower "hi there thanks, please add task buy milk")) k) = true
    ∧ is_casual_conversation "hi there thanks, please add task buy milk" = false :=
  ⟨by decide, casual_false_on_task_keyword _ (by decide)⟩

/-! Intent parser (backend/agent/intent_parser.py).

Regular-expression matching is abstracted by an oracle carrying the regex
engine; every call site passes the verbatim pattern string of the source.
test p t stands for re.search(p, t) being a match, searchG1 and searchG2
for group(1) and (group(1), group(2)) of a successful search, searchNat for
int(group(1)) of a digits-only group, and sub p r t for re.sub(p, r, t). -/
structure Re where
  test : String → String → Bool
  searchG1 : String → String → Option String
  searchG2 : String → String → Option (String × String)
  searchNat : String → String → Option Nat
  sub : String → String → String → String

/-- Intent enum of intent_parser.py. -/
inductive Intent where
  | CREATE
  | LIST
  | COMPLETE
  | UPDATE
  | DELETE
  | UNKNOWN
deriving Repr, DecidableEq

/-- ClassificationMethod enum of intent_parser.py. -/
inductive ClassificationMethod where
  | RULE_BASED
  | LLM_FALLBACK
deriving Repr, DecidableEq

/-- Values stored in an extracted-parameter dict: Python None, str, int and
bool values. -/
inductive PVal where
  | none
  | str (s : String)
  | nat (n : Nat)
  | bool (b : Bool)
deriving Repr, DecidableEq

/-- An extracted-parameter dict, as the association list of its entries in
insertion order.  All extractors use pairwise distinct keys. -/
abbrev Params := List (String × PVal)

/-- IntentClassification of intent_parser.py. -/
structure IntentClassification where
  operation_type : Intent
  confidence : ℚ
  extracted_parameters : Params
  classification_method : ClassificationMethod
deriving Repr, DecidableEq

def create_patterns : List String :=
  ["\\b(create|add|new)\\s+(?:a\\s+)?(?:\\w+\\s+)*task\\b",
   "\\bremind\\s+me\\s+to\\b",
   "\\b(make|add)\\s+a\\s+(?:new\\s+)?(?:\\w+\\s+)?(task|todo|reminder)\\b"]

def list_patterns : List String :=
  ["\\b(show|list|display|get|view)\\s+(?:me\\s+)?(?:my\\s+)?(?:\\w+\\s+)*tasks?\\b",
   "\\bwhat\\s+(?:are\\s+)?(?:my\\s+)?tasks?\\b(?:\\s+\\w+)*",
   "\\b(see|check)\\s+(?:my\\s+)?(?:\\w+\\s+)*tasks?\\b"]

def complete_patterns : List String :=
  ["\\b(mark|set)\\s+.*\\s+as\\s+(done|complet(?:e|ed)|finish(?:ed)?)\\b",
   "\\b(mark|set)\\s+.*\\s+(done|complet(?:e|ed)|finish(?:ed)?)\\b",
   "\\btask\\s+(done|complet(?:e|ed)|finish(?:ed)?)\\b",
   "\\b(complet(?:e|ed)|finish(?:ed)?)\\s+.*\\s+task\\b",
   "\\bdone\\s+with\\b",
   "\\b(i\\s+already|i\\s+finished|i\\s+completed|as\\s+i\\s+already)\\b.*\\b(mark|done|complet(?:e|ed))\\b",
   "\\bundo\\s+(completion|complet(?:e|ed))\\b"]

def update_patterns : List String :=
  ["\\b(change|update|modify|edit|rename)\\s+.*\\s+to\\b",
   "\\bupdate\\s+(task|the)\\b",
   "\\brename\\s+task\\b"]

def delete_patterns : List String :=
  ["\\b(delete|remove|get\\s+rid\\s+of)\\s+",
   "\\bdelete\\s+.*\\s+task\\b"]

/-- Python re.sub of the anchored pattern [.!?]+$ with the empty string. -/
def dropTrailingPunct (s : String) : String :=
  ⟨(s.data.reverse.dropWhile (fun c => c == '.' || c == '!' || c == '?')).reverse⟩

/-- Python startswith on strings. -/
def strStartsWith (s p : String) : Bool :=
  p.data.isPrefixOf s.data

/-- Python slicing s[n:]. -/
def strDrop (s : String) (n : Nat) : String :=
  ⟨s.data.drop n⟩

/-- extract_create_params of intent_parser.py. -/
def extract_create_params (re : Re) (message : String) : Params :=
  let message_lower := pyLower message
  let title_match : Option String :=
    if strContains message_lower "remind me to" then
      re.searchG1 "remind\\s+me\\s+to\\s+(.+)" message_lower
    else if strContains message_lower "create" || strContains message_lower "add" then
      re.searchG1 "(?:create|add|new)\\s+(?:a\\s+)?task\\s+(?:to\\s+)?(.+)" message_lower
    else none
  let titleVal : PVal :=
    match title_match with
    | some g => PVal.str (dropTrailingPunct (pyStrip g))
    | none => PVal.str (pyStrip message)
  let priorityVal : PVal :=
    if re.test "\\bhigh\\s+priority\\b" message_lower then PVal.str "high"
    else if re.test "\\bmedium\\s+priority\\b" message_lower then PVal.str "medium"
    else if re.test "\\blow\\s+priority\\b" message_lower then PVal.str "low"
    else PVal.none
  let descriptionVal : PVal :=
    match re.searchG1 "with\\s+(.+)" message_lower with
    | some g => PVal.str (pyStrip g)
    | none => PVal.none
  [("title", titleVal), ("priority", priorityVal),
   ("description", descriptionVal), ("due_date", PVal.none)]

/-- extract_list_params of intent_parser.py. -/
def extract_list_params (re : Re) (message : String) : Params :=
  let message_lower := pyLower message
  let completedVal : PVal :=
    if re.test "\\b(left|incomplete|not\\s+done|pending)\\b" message_lower then PVal.bool false
    else if re.test "\\b(completed|done|finished)\\b" message_lower then PVal.bool true
    else PVal.none
  let priorityVal : PVal :=
    if re.test "\\bhigh\\s+priority\\b" message_lower then PVal.str "high"
    else if re.test "\\bmedium\\s+priority\\b" message_lower then PVal.str "medium"
    else if re.test "\\blow\\s+priority\\b" message_lower then PVal.str "low"
    else PVal.none
  [("completed", completedVal), ("priority", priorityVal)]

def context_patterns : List String :=
  ["(?:i\\s+(?:did|bought|finished|completed|prepared|studied)\\s+(?:for\\s+)?(?:my\\s+)?(.+?))\\s*$",
   "(?:i\\s+(?:went|had)\\s+(?:to\\s+)?(.+?))\\s*$",
   "(?:just\\s+(?:did|finished|completed)\\s+(.+?))\\s*$"]

/-- The strategy-6 loop of extract_complete_params: first context pattern
matching the conversation context, trailing temporal words stripped. -/
def firstContextMatch (re : Re) (context_lower : String) : Option String :=
  match context_patterns.findSome? (fun p => re.searchG1 p context_lower) with
  | some g => some (re.sub "\\s+(today|yesterday|just now|earlier)$" "" (pyStrip g))
  | none => none

/-- extract_complete_params of intent_parser.py: the six title strategies in
source order, then the cleanup substitutions, then the undo flag. -/
def extract_complete_params (re : Re) (message context_text : String) : Params :=
  let message_lower := pyLower message
  let taskIdVal : PVal :=
    match re.searchNat "task\\s+(\\d+)" message_lower with
    | some n => PVal.nat n
    | none => PVal.none
  let t1 := re.searchG1 "[\x27\"]([^\x27\"]+)[\x27\"]" message
  let t2 :=
    match t1 with
    | some t => some t
    | none =>
      Option.map pyStrip
        (re.searchG1 "mark\\s+(?:my\\s+)?(.+?)\\s+task\\s+(?:done|complete|finished)" message_lower)
  let t3 :=
    match t2 with
    | some t => some t
    | none =>
      match re.searchG1 "mark\\s+(?:my\\s+)?(.+?)\\s+(?:done|complete|finished)" message_lower with
      | some g => some (pyStrip (re.sub "\\btask\\b" "" (pyStrip g)))
      | none => none
  let t4 :=
    match t3 with
    | some t => some t
    | none =>
      Option.map pyStrip
        (re.searchG1 "mark\\s+(?:my\\s+)?(.+?)\\s+as\\s+(?:done|complete|finished)" message_lower)
  let t5 :=
    match t4 with
    | some t => some t
    | none =>
      Option.map pyStrip
        (re.searchG1
          "(?:i\\s+(?:prepared|finished|completed|did|studied)\\s+(?:for\\s+)?(?:my\\s+)?(.+?))\\s+(?:mark|done|complete)"
          message_lower)
  let t6 :=
    match t5 with
    | some t => some t
    | none =>
      if !(context_text == "") then
        if re.test "\\b(it|that|this(?:\\s+task)?)\\b" message_lower then
          firstContextMatch re (pyLower context_text)
        else none
      else none
  let titleVal : PVal :=
    match t6 with
    | some title =>
      PVal.str (re.sub "\\s+task$" "" (re.sub "^the\\s+" "" (re.sub "^my\\s+" "" title)))
    | none => PVal.none
  let completedVal : PVal :=
    if re.test "\\bundo\\b" message_lower then PVal.bool false else PVal.bool true
  [("task_id", taskIdVal), ("task_title", titleVal), ("completed", completedVal)]

/-- extract_update_params of intent_parser.py. -/
def extract_update_params (re : Re) (message : String) : Params :=
  let message_lower := pyLower message
  let taskIdVal : PVal :=
    match re.searchNat "task\\s+(\\d+)" message_lower with
    | some n => PVal.nat n
    | none => PVal.none
  let titles : PVal × PVal :=
    match re.searchG2 "[\x27\"]([^\x27\"]+)[\x27\"]\\s+to\\s+[\x27\"]([^\x27\"]+)[\x27\"]" message with
    | some (a, b) => (PVal.str a, PVal.str b)
    | none =>
      match re.searchG2 "(?:change|update|rename)\\s+(.+?)\\s+to\\s+(.+)" message_lower with
      | some (a, b) => (PVal.str (pyStrip a), PVal.str (pyStrip b))
      | none => (PVal.none, PVal.none)
  let newDescriptionVal : PVal :=
    match re.searchG1 "description\\s+to\\s+(.+)" message_lower with
    | some g => PVal.str (pyStrip g)
    | none => PVal.none
  [("task_id", taskIdVal), ("task_title", titles.1),
   ("new_title", titles.2), ("new_description", newDescriptionVal)]

/-- The while loop of extract_delete_params stripping leading "the " and
"task " tokens; the fuel is the string length, which every iteration
strictly decreases, so the loop is never cut short. -/
def stripLeadingTheTask : Nat → String → String
  | 0, t => t
  | fuel + 1, t =>
    if strStartsWith t "the " then stripLeadingTheTask fuel (pyStrip (strDrop t 4))
    else if strStartsWith t "task " then stripLeadingTheTask fuel (pyStrip (strDrop t 5))
    else t

/-- extract_delete_params of intent_parser.py. -/
def extract_delete_params (re : Re) (message : String) : Params :=
  let message_lower := pyLower message
  let taskIdVal : PVal :=
    match re.searchNat "task\\s+(\\d+)" message_lower with
    | some n => PVal.nat n
    | none => PVal.none
  let titleVal : PVal :=
    match re.searchG1 "[\x27\"]([^\x27\"]+)[\x27\"]" message with
    | some g => PVal.str g
    | none =>
      match re.searchG1 "(?:delete|remove)\\s+(.+)$" message_lower with
      | some g => PVal.str (stripLeadingTheTask (pyStrip g).length (pyStrip g))
      | none => PVal.none
  [("task_id", taskIdVal), ("task_title", titleVal)]

/-- The context window of parse_intent: among the last six history entries
keep the user turns, then the last three of those, joined by blanks. -/
def buildContext (conversation_history : List (String × String)) : String :=
  let recent_user_messages :=
    ((conversation_history.drop (conversation_history.length - 6)).filter
      (fun m => m.1 == "user")).map Prod.snd
  String.intercalate " "
    (recent_user_messages.drop (recent_user_messages.length - 3))

/-- parse_intent of intent_parser.py: the five ordered pattern groups, each
with its fixed confidence, and UNKNOWN at 0.45 when none matches. -/
def parse_intent (re : Re) (message : String)
    (conversation_history : List (String × String)) : IntentClassification :=
  let message_lower := pyStrip (pyLower message)
  let context_text := buildContext conversation_history
  if create_patterns.any (fun p => re.test p message_lower) then
    { operation_type := Intent.CREATE, confidence := 95/100,
      extracted_parameters := extract_create_params re message,
      classification_method := ClassificationMethod.RULE_BASED }
  else if list_patterns.any (fun p => re.test p message_lower) then
    { operation_type := Intent.LIST, confidence := 98/100,
      extracted_parameters := extract_list_params re message,
      classification_method := ClassificationMethod.RULE_BASED }
  else if complete_patterns.any (fun p => re.test p message_lower) then
    { operation_type := Intent.COMPLETE, confidence := 92/100,
      extracted_parameters := extract_complete_params re message context_text,
      classification_method := ClassificationMethod.RULE_BASED }
  else if update_patterns.any (fun p => re.test p message_lower) then
    { operation_type := Intent.UPDATE, confidence := 89/100,
      extracted_parameters := extract_update_params re message,
      classification_method := ClassificationMethod.RULE_BASED }
  else if delete_patterns.any (fun p => re.test p message_lower) then
    { operation_type := Intent.DELETE, confidence := 91/100,
      extracted_parameters := extract_delete_params re message,
      classification_method := ClassificationMethod.RULE_BASED }
  else
    { operation_type := Intent.UNKNOWN, confidence := 45/100,
      extracted_parameters := [],
      classification_method := ClassificationMethod.RULE_BASED }

/-- Whether any pattern of a group matches the lowered message. -/
def groupAnyMatch (re : Re) (patterns : List String) (message_lower : String) : Bool :=
  patterns.any (fun p => re.test p message_lower)

/-- Fixed confidence per intent as worded in the spec, section 4.2. -/
def intentConfidence : Intent → ℚ
  | Intent.CREATE => 95/100
  | Intent.LIST => 98/100
  | Intent.COMPLETE => 92/100
  | Intent.UPDATE => 89/100
  | Intent.DELETE => 91/100
  | Intent.UNKNOWN => 45/100

/-- First matching group in the fixed evaluation order of the spec,
section 4.2. -/
def specFirstIntent (c l co u d : Bool) : Intent :=
  if c then Intent.CREATE
  else if l then Intent.LIST
  else if co then Intent.COMPLETE
  else if u then Intent.UPDATE
  else if d then Intent.DELETE
  else Intent.UNKNOWN

/-- C4: parse_intent evaluates the five pattern groups in the order CREATE,
LIST, COMPLETE, UPDATE, DELETE, the first group with any matching pattern
determines the intent, the confidence is the fixed value attached to that
intent (0.95, 0.98, 0.92, 0.89, 0.91, and 0.45 for UNKNOWN), and the
classification is rule-based. -/
theorem parse_intent_order_and_confidence (re : Re) (message : String)
    (conversation_history : List (String × String)) :
    (parse_intent re message conversation_history).operation_type
      = specFirstIntent
          (groupAnyMatch re create_patterns (pyStrip (pyLower message)))
          (groupAnyMatch re list_patterns (pyStrip (pyLower message)))
          (groupAnyMatch re complete_patterns (pyStrip (pyLower message)))
          (groupAnyMatch re update_patterns (pyStrip (pyLower message)))
          (groupAnyMatch re delete_patterns (pyStrip (pyLower message)))
    ∧ (parse_intent re message conversation_history).confidence
      = intentConfidence (parse_intent re message conversation_history).operation_type
    ∧ (parse_intent re message conversation_history).classification_method
      = ClassificationMethod.RULE_BASED := by
  refine ⟨?_, ?_, ?_⟩ <;>
    · simp only [parse_intent, specFirstIntent, groupAnyMatch, intentConfidence]
      split_ifs <;> rfl

/-- C7: every per-intent extractor is a total function (its Lean embedding
is accepted as terminating on all inputs, whatever the regex oracle and the
message), and its result dict carries every field of the parameter set of
that intent, PVal.none standing for a field that could not be extracted. -/
theorem extractors_total_all_fields_present (re : Re) (message context_text : String) :
    (((extract_create_params re message).lookup "title").isSome = true
      ∧ ((extract_create_params re message).lookup "priority").isSome = true
      ∧ ((extract_create_params re message).lookup "description").isSome = true
      ∧ ((extract_create_params re message).lookup "due_date").isSome = true)
    ∧ (((extract_list_params re message).lookup "completed").isSome = true
      ∧ ((extract_list_params re message).lookup "priority").isSome = true)
    ∧ (((extract_complete_params re message context_text).lookup "task_id").isSome = true
      ∧ ((extract_complete_params re message context_text).lookup "task_title").isSome = true
      ∧ ((extract_complete_params re message context_text).lookup "completed").isSome = true)
    ∧ (((extract_update_params re message).lookup "task_id").isSome = true
      ∧ ((extract_update_params re message).lookup "task_title").isSome = true
      ∧ ((extract_update_params re message).lookup "new_title").isSome = true
      ∧ ((extract_update_params re message).lookup "new_description").isSome = true)
    ∧ (((extract_delete_params re message).lookup "task_id").isSome = true
      ∧ ((extract_delete_params re message).lookup "task_title").isSome = true) := by
  refine ⟨⟨?_, ?_, ?_, ?_⟩, ⟨?_, ?_⟩, ⟨?_, ?_, ?_⟩, ⟨?_, ?_, ?_, ?_⟩, ⟨?_, ?_⟩⟩ <;>
    simp [extract_create_params, extract_list_params, extract_complete_params,
      extract_update_params, extract_delete_params, List.lookup]

/-! Task store tools (backend/mcp/tools) and dispatch invokers (agent.py). -/

/-- Autoincrement primary key of the tasks table: one more than the largest
id in the store. -/
def nextId (db : DB) : Nat :=
  db.foldr (fun t m => max t.id m) 0 + 1

/-- add_task of backend/mcp/tools/add_task.py: validations, then insertion
of a row with completed false. -/
def add_task (db : DB) (user_id title : String)
    (description priority : Option String) : ToolResponse × DB :=
  if validUserId user_id = false then
    ({ success := false,
       error := some "User ID is required and cannot be empty",
       error_code := some "INVALID_USER_ID" }, db)
  else if 500 < title.length then
    ({ success := false,
       error := some "Task title must be 500 characters or less",
       error_code := some "VALIDATION_ERROR" }, db)
  else if (match description with
      | some d => !(d == "") && decide (2000 < d.length)
      | none => false) = true then
    ({ success := false,
       error := some "Task description must be 2000 characters or less",
       error_code := some "VALIDATION_ERROR" }, db)
  else
    let new_task : Task :=
      { id := nextId db, user_id := user_id, title := title,
        description := description, completed := false, priority := priority }
    ({ success := true, data := some (ToolData.taskData new_task) }, db ++ [new_task])

/-- complete_task of backend/mcp/tools/complete_task.py: owner-verified
lookup, then the completed flag is set on that row. -/
def complete_task (db : DB) (user_id : String) (task_id : Nat)
    (completed : Bool) : ToolResponse × DB :=
  if validUserId user_id = false then
    ({ success := false,
       error := some "User ID is required and cannot be empty",
       error_code := some "INVALID_USER_ID" }, db)
  else
    match db.find? (fun t => t.id == task_id && t.user_id == user_id) with
    | none =>
      ({ success := false,
         error := some "Task not found or you don\x27t have permission to access it",
         error_code := some "TASK_NOT_FOUND" }, db)
    | some t =>
      ({ success := true, data := some (ToolData.taskData { t with completed := completed }) },
       db.map (fun u =>
         if u.id == task_id && u.user_id == user_id then { u with completed := completed } else u))

/-- update_task of backend/mcp/tools/update_task.py: validations, then
owner-verified lookup, then partial update of title and description. -/
def update_task (db : DB) (user_id : String) (task_id : Nat)
    (new_title new_description : Option String) : ToolResponse × DB :=
  if validUserId user_id = false then
    ({ success := false,
       error := some "User ID is required and cannot be empty",
       error_code := some "INVALID_USER_ID" }, db)
  else if new_title = none ∧ new_description = none then
    ({ success := false,
       error := some "At least one of new_title or new_description must be provided",
       error_code := some "VALIDATION_ERROR" }, db)
  else if (match new_title with
      | some s => !(s == "") && decide (500 < s.length)
      | none => false) = true then
    ({ success := false,
       error := some "Task title must be 500 characters or less",
       error_code := some "VALIDATION_ERROR" }, db)
  else if (match new_description with
      | some d => !(d == "") && decide (2000 < d.length)
      | none => false) = true then
    ({ success := false,
       error := some "Task description must be 2000 characters or less",
       error_code := some "VALIDATION_ERROR" }, db)
  else
    match db.find? (fun t => t.id == task_id && t.user_id == user_id) with
    | none =>
      ({ success := false,
         error := some "Task not found or you don\x27t have permission to access it",
         error_code := some "TASK_NOT_FOUND" }, db)
    | some t =>
      let upd := fun (u : Task) =>
        { u with
          title := match new_title with | some s => s | none => u.title,
          description := match new_description with | some s => some s | none => u.description }
      ({ success := true, data := some (ToolData.taskData (upd t)) },
       db.map (fun u => if u.id == task_id && u.user_id == user_id then upd u else u))

/-- delete_task of backend/mcp/tools/delete_task.py: owner-verified lookup,
then the row is removed. -/
def delete_task (db : DB) (user_id : String) (task_id : Nat) : ToolResponse × DB :=
  if validUserId user_id = false then
    ({ success := false,
       error := some "User ID is required and cannot be empty",
       error_code := some "INVALID_USER_ID" }, db)
  else
    match db.find? (fun t => t.id == task_id && t.user_id == user_id) with
    | none =>
      ({ success := false,
         error := some "Task not found or you don\x27t have permission to access it",
         error_code := some "TASK_NOT_FOUND" }, db)
    | some t =>
      ({ success := true, data := some (ToolData.deleted t.id) },
       db.eraseP (fun u => u.id == task_id && u.user_id == user_id))

/-- The result dict assembled by the invoke_* helpers of agent.py. -/
structure ToolResult where
  tool_name : Option String := none
  success : Bool
  data : Option ToolData := none
  error : Option String := none
  error_code : Option String := none
  execution_time_ms : Option Nat := none
deriving Repr, DecidableEq

/-- Outcome of one dispatch: the result dict, the store afterwards, and
whether a mutating store tool (add, complete, update, delete) was invoked
at all during the dispatch. -/
structure InvokeOut where
  result : ToolResult
  db : DB
  storeMutated : Bool
deriving Repr, DecidableEq

/-- Python params.get(key) read as an int; the extractors store task ids as
ints, so a value of any other shape cannot arise. -/
def pGetNat (params : Params) (key : String) : Option Nat :=
  match params.lookup key with
  | some (PVal.nat n) => some n
  | _ => none

/-- Python params.get(key) read as a str. -/
def pGetStr (params : Params) (key : String) : Option String :=
  match params.lookup key with
  | some (PVal.str s) => some s
  | _ => none

/-- Python params.get(key, default) read as a str; the extractors always
store a str under the title key, so the default is for an absent key. -/
def pGetStrD (params : Params) (key : String) (dflt : String) : String :=
  match params.lookup key with
  | some (PVal.str s) => s
  | _ => dflt

/-- Python params.get(key) read as a bool. -/
def pGetBool (params : Params) (key : String) : Option Bool :=
  match params.lookup key with
  | some (PVal.bool b) => some b
  | _ => none

/-- Python params.get(key, default) read as a bool. -/
def pGetBoolD (params : Params) (key : String) (dflt : Bool) : Bool :=
  match params.lookup key with
  | some (PVal.bool b) => b
  | _ => dflt

/-- Python falsiness of an optional string: None and the empty string. -/
def optFalsy : Option String → Bool
  | none => true
  | some s => s == ""

/-- Pydantic validation of AddTaskInput (backend/mcp/schemas/task_inputs.py):
a failing construction raises inside the invoker and is caught as
INTERNAL_ERROR. -/
def addTaskInputInvalid (user_id title : String) (description : Option String) : Bool :=
  user_id.length == 0 || title.length == 0 || decide (500 < title.length)
  || (match description with | some d => decide (2000 < d.length) | none => false)

/-- Pydantic validation of CompleteTaskInput and DeleteTaskInput: the task
id must be positive. -/
def taskIdInputInvalid (task_id : Nat) : Bool :=
  task_id == 0

/-- Pydantic validation of UpdateTaskInput. -/
def updateTaskInputInvalid (task_id : Nat) (new_title new_description : Option String) : Bool :=
  task_id == 0
  || (match new_title with | some s => s.length == 0 || decide (500 < s.length) | none => false)
  || (match new_description with | some d => decide (2000 < d.length) | none => false)

/-- invoke_add_task of agent.py. -/
def invoke_add_task (db : DB) (user_id : String) (params : Params) : InvokeOut :=
  let title := pGetStrD params "title" "Untitled task"
  let description := pGetStr params "description"
  if addTaskInputInvalid user_id title description then
    ⟨{ tool_name := some "add_task", success := false,
       error := some "Input validation failed", error_code := some "INTERNAL_ERROR" }, db, false⟩
  else
    let out := add_task db user_id title description (pGetStr params "priority")
    ⟨{ tool_name := some "add_task", success := out.1.success, data := out.1.data,
       error := out.1.error, error_code := out.1.error_code }, out.2, true⟩

/-- invoke_list_tasks of agent.py.  Listing mutates nothing. -/
def invoke_list_tasks (db : DB) (user_id : String) (params : Params) : InvokeOut :=
  if user_id.length == 0 then
    ⟨{ tool_name := some "list_tasks", success := false,
       error := some "Input validation failed", error_code := some "INTERNAL_ERROR" }, db, false⟩
  else
    let resp := list_tasks db user_id (pGetBool params "completed") (pGetStr params "priority")
    ⟨{ tool_name := some "list_tasks", success := resp.success, data := resp.data,
       error := resp.error, error_code := resp.error_code }, db, false⟩

/-- invoke_complete_task of agent.py: resolve first, short-circuit on
failure without touching the store. -/
def invoke_complete_task (db : DB) (user_id : String) (params : Params) : InvokeOut :=
  match identify_task db user_id (pGetNat params "task_id") (pGetStr params "task_title") with
  | none =>
    ⟨{ tool_name := some "complete_task", success := false,
       error := some "Task not found", error_code := some "TASK_NOT_FOUND" }, db, false⟩
  | some tid =>
    if taskIdInputInvalid tid then
      ⟨{ tool_name := some "complete_task", success := false,
         error := some "Input validation failed", error_code := some "INTERNAL_ERROR" }, db, false⟩
    else
      let out := complete_task db user_id tid (pGetBoolD params "completed" true)
      ⟨{ tool_name := some "complete_task", success := out.1.success, data := out.1.data,
         error := out.1.error, error_code := out.1.error_code }, out.2, true⟩

/-- invoke_update_task of agent.py: resolve first, then require one new
field, then call the tool, adding the old title to a successful payload. -/
def invoke_update_task (db : DB) (user_id : String) (params : Params) : InvokeOut :=
  match identify_task db user_id (pGetNat params "task_id") (pGetStr params "task_title") with
  | none =>
    ⟨{ tool_name := some "update_task", success := false,
       error := some "Task not found", error_code := some "TASK_NOT_FOUND" }, db, false⟩
  | some tid =>
    let new_title := pGetStr params "new_title"
    let new_description := pGetStr params "new_description"
    if optFalsy new_title && optFalsy new_description then
      ⟨{ tool_name := some "update_task", success := false,
         error := some "At least one of new_title or new_description must be provided",
         error_code := some "VALIDATION_ERROR" }, db, false⟩
    else if updateTaskInputInvalid tid new_title new_description then
      ⟨{ tool_name := some "update_task", success := false,
         error := some "Input validation failed", error_code := some "INTERNAL_ERROR" }, db, false⟩
    else
      let out := update_task db user_id tid new_title new_description
      let payload : Option ToolData :=
        match out.1.success, out.1.data with
        | true, some (ToolData.taskData t) =>
          some (ToolData.updatedTask t (pGetStr params "task_title"))
        | _, d => d
      ⟨{ tool_name := some "update_task", success := out.1.success, data := payload,
         error := out.1.error, error_code := out.1.error_code }, out.2, true⟩

/-- invoke_delete_task of agent.py. -/
def invoke_delete_task (db : DB) (user_id : String) (params : Params) : InvokeOut :=
  match identify_task db user_id (pGetNat params "task_id") (pGetStr params "task_title") with
  | none =>
    ⟨{ tool_name := some "delete_task", success := false,
       error := some "Task not found", error_code := some "TASK_NOT_FOUND" }, db, false⟩
  | some tid =>
    if taskIdInputInvalid tid then
      ⟨{ tool_name := some "delete_task", success := false,
         error := some "Input validation failed", error_code := some "INTERNAL_ERROR" }, db, false⟩
    else
      let out := delete_task db user_id tid
      ⟨{ tool_name := some "delete_task", success := out.1.success, data := out.1.data,
         error := out.1.error, error_code := out.1.error_code }, out.2, true⟩

/-- invoke_tool of agent.py: route on the classified intent, then stamp the
execution time on the result.  elapsedMs is the elapsed wall clock of the
body in integer milliseconds and exc the exception raised by the body, if
any: the normal path stamps max 1 elapsedMs (line 328), the exception
handler stamps the raw elapsedMs without the one-millisecond floor
(line 337).  The final else branch of the source routing is unreachable
since the intent enum is total here. -/
def invoke_tool (db : DB) (user_id : String) (intent : IntentClassification)
    (elapsedMs : Nat) (exc : Option String) : InvokeOut :=
  match exc with
  | some e =>
    ⟨{ tool_name := none, success := false, data := none, error := some e,
       error_code := some "INTERNAL_ERROR", execution_time_ms := some elapsedMs }, db, false⟩
  | none =>
    let out :=
      match intent.operation_type with
      | Intent.CREATE => invoke_add_task db user_id intent.extracted_parameters
      | Intent.LIST => invoke_list_tasks db user_id intent.extracted_parameters
      | Intent.COMPLETE => invoke_complete_task db user_id intent.extracted_parameters
      | Intent.UPDATE => invoke_update_task db user_id intent.extracted_parameters
      | Intent.DELETE => invoke_delete_task db user_id intent.extracted_parameters
      | Intent.UNKNOWN =>
        ⟨{ tool_name := none, success := false, data := none,
           error := some "Unknown intent", error_code := some "UNKNOWN_INTENT" }, db, false⟩
    ⟨{ out.result with execution_time_ms := some (max 1 elapsedMs) },
     out.db, out.storeMutated⟩

/-- C1: a COMPLETE, UPDATE or DELETE dispatch whose task id does not occur
among the tasks of the owner (in particular an id owned by someone else)
returns the failed TASK_NOT_FOUND result, leaves the store untouched and
never invokes a mutating store tool: the resolver re-fetches the task list
of the owner and accepts the id only when present in it. -/
theorem dispatch_foreign_id_task_not_found (db : DB) (user_id : String)
    (tid : Nat) (params : Params)
    (hid : pGetNat params "task_id" = some tid)
    (h : (ownerTasks db user_id).any (fun t => t.id == tid) = false) :
    invoke_complete_task db user_id params
      = ⟨{ tool_name := some "complete_task", success := false,
           error := some "Task not found", error_code := some "TASK_NOT_FOUND" }, db, false⟩
    ∧ invoke_update_task db user_id params
      = ⟨{ tool_name := some "update_task", success := false,
           error := some "Task not found", error_code := some "TASK_NOT_FOUND" }, db, false⟩
    ∧ invoke_delete_task db user_id params
      = ⟨{ tool_name := some "delete_task", success := false,
           error := some "Task not found", error_code := some "TASK_NOT_FOUND" }, db, false⟩ := by
  have hnone : identify_task db user_id (pGetNat params "task_id")
      (pGetStr params "task_title") = none := by
    rw [hid, identify_task_some_id]
    simp [h]
  refine ⟨?_, ?_, ?_⟩ <;>
    simp [invoke_complete_task, invoke_update_task, invoke_delete_task, hnone]

/-- C1 witness: owner bob dispatching against the task of alice. -/
theorem dispatch_foreign_id_task_not_found_witness :
    (pGetNat [("task_id", PVal.nat 1)] "task_id" = some 1
      ∧ (ownerTasks [⟨1, "alice", "Buy milk", none, false, none⟩] "bob").any
          (fun t => t.id == 1) = false)
    ∧ (invoke_delete_task [⟨1, "alice", "Buy milk", none, false, none⟩] "bob"
        [("task_id", PVal.nat 1)]).result.error_code = some "TASK_NOT_FOUND" :=
  ⟨⟨by decide, by decide⟩, by
    rw [(dispatch_foreign_id_task_not_found
      [⟨1, "alice", "Buy milk", none, false, none⟩] "bob" 1 [("task_id", PVal.nat 1)]
      (by decide) (by decide)).2.2]⟩

/-- C3 counterexample: an UPDATE dispatch whose parameters carry neither a
resolvable task reference nor new values reports TASK_NOT_FOUND, not
VALIDATION_ERROR, because task resolution runs before the field check. -/
theorem update_null_fields_not_validation_error :
    ¬ ((invoke_update_task ([] : DB) "alice" ([] : Params)).result.error_code
        = some "VALIDATION_ERROR") := by
  decide

/-- C3 (amended): an UPDATE dispatch with both new_title and new_description
null never invokes the mutating update tool and leaves the store untouched;
it returns the failed VALIDATION_ERROR result when its task reference
resolves to a task of the owner, and the failed TASK_NOT_FOUND result when
it does not. -/
theorem update_null_fields_validation (db : DB) (user_id : String) (params : Params)
    (h1 : pGetStr params "new_title" = none)
    (h2 : pGetStr params "new_description" = none) :
    (invoke_update_task db user_id params).result.success = false
    ∧ (invoke_update_task db user_id params).result.error_code
        = some (match identify_task db user_id (pGetNat params "task_id")
                  (pGetStr params "task_title") with
                | some _ => "VALIDATION_ERROR"
                | none => "TASK_NOT_FOUND")
    ∧ (invoke_update_task db user_id params).db = db
    ∧ (invoke_update_task db user_id params).storeMutated = false := by
  cases hi : identify_task db user_id (pGetNat params "task_id")
      (pGetStr params "task_title") with
  | none => simp [invoke_update_task, hi]
  | some tid => simp [invoke_update_task, hi, h1, h2, optFalsy]

/-- C3 witness: a resolvable id with no new values yields VALIDATION_ERROR. -/
theorem update_null_fields_validation_witness :
    (pGetStr [("task_id", PVal.nat 1)] "new_title" = none
      ∧ pGetStr [("task_id", PVal.nat 1)] "new_description" = none)
    ∧ (invoke_update_task [⟨1, "alice", "Buy milk", none, false, none⟩] "alice"
        [("task_id", PVal.nat 1)]).result.error_code = some "VALIDATION_ERROR" :=
  ⟨⟨by decide, by decide⟩, by
    rw [(update_null_fields_validation [⟨1, "alice", "Buy milk", none, false, none⟩]
      "alice" [("task_id", PVal.nat 1)] (by decide) (by decide)).2.1]
    decide⟩

/-- C6: a successful CREATE appends exactly one row, carrying the requested
title and completed false, and an immediately following unfiltered LIST for
the same owner returns a list containing that title with completed false. -/
theorem add_then_list_round_trip (db : DB) (user_id title : String)
    (description priority : Option String)
    (h : (add_task db user_id title description priority).1.success = true) :
    (add_task db user_id title description priority).2
      = db ++ [{ id := nextId db, user_id := user_id, title := title,
                 description := description, completed := false, priority := priority }]
    ∧ ∃ t ∈ listedTasks (list_tasks (add_task db user_id title description priority).2
          user_id none none),
        t.title = title ∧ t.completed = false := by
  simp only [add_task] at h
  split_ifs at h with hv hlen hdesc
  have hv' : validUserId user_id = true := by
    cases hb : validUserId user_id
    · exact absurd hb hv
    · rfl
  have hdb : (add_task db user_id title description priority).2
      = db ++ [{ id := nextId db, user_id := user_id, title := title,
                 description := description, completed := false, priority := priority }] := by
    simp [add_task, hv, hlen, hdesc]
  refine ⟨hdb, ?_⟩
  rw [hdb, list_tasks_all _ _ hv']
  refine ⟨{ id := nextId db, user_id := user_id, title := title,
            description := description, completed := false, priority := priority },
    ?_, rfl, rfl⟩
  simp [listedTasks, ownerTasks]

/-- C6 witness: creating Buy milk for user123 in the empty store. -/
theorem add_then_list_round_trip_witness :
    (add_task ([] : DB) "user123" "Buy milk" none none).1.success = true
    ∧ ((add_task ([] : DB) "user123" "Buy milk" none none).2
        = [] ++ [{ id := nextId ([] : DB), user_id := "user123", title := "Buy milk",
                   description := none, completed := false, priority := none }]
      ∧ ∃ t ∈ listedTasks (list_tasks (add_task ([] : DB) "user123" "Buy milk" none none).2
            "user123" none none),
          t.title = "Buy milk" ∧ t.completed = false) :=
  ⟨by decide, add_then_list_round_trip [] "user123" "Buy milk" none none (by decide)⟩

/-- C9 counterexample: when the dispatch body raises after zero measured
milliseconds, the stamped execution time is 0, below the claimed 1 ms
minimum. -/
theorem invoke_tool_exception_time_zero :
    (invoke_tool ([] : DB) "alice"
        { operation_type := Intent.UNKNOWN, confidence := 45/100,
          extracted_parameters := [],
          classification_method := ClassificationMethod.RULE_BASED }
        0 (some "boom")).result.execution_time_ms = some 0
    ∧ ¬ (1 ≤ (0 : Nat)) :=
  ⟨rfl, by decide⟩

/-- C9 (amended): on every dispatch whose body does not raise, the stamped
execution time is max 1 elapsedMs, hence at least 1; on the exception path
it is the raw elapsed time, which can be 0. -/
theorem invoke_tool_time_floor (db : DB) (user_id : String)
    (intent : IntentClassification) (elapsedMs : Nat) :
    (invoke_tool db user_id intent elapsedMs none).result.execution_time_ms
      = some (max 1 elapsedMs)
    ∧ 1 ≤ max 1 elapsedMs
    ∧ ∀ e, (invoke_tool db user_id intent elapsedMs (some e)).result.execution_time_ms
        = some elapsedMs :=
  ⟨rfl, le_max_left _ _, fun _ => rfl⟩

end TodoAgent
